import Mathlib

/-!
Verification of the `cacao` layer wrapper (src/layer/mod.rs) against its
specification.  The file embeds the `Layer` facade directly from the source;
the `ObjcProperty` managed-handle type it delegates to lives in
`crate::utils::properties`, which is not part of the provided excerpt, so its
lifetime and locking behaviour is modelled from the specification's words
(each such definition says so in its doc comment).
-/

namespace Cacao

/-- Bit pattern of a Rust `f64` value.  The layer code never does arithmetic on
floating-point values; it only forwards them, so a value is carried opaquely by
its bit pattern. -/
structure F64 where
  bits : Nat
deriving DecidableEq, Repr

/-- Rust `CGFloat` (from `core_graphics::base`): on the 64-bit targets this
crate supports, `CGFloat` is `f64`. -/
abbrev CGFloat := F64

/-- The cast `radius as CGFloat` in `Layer::set_corner_radius`: with
`CGFloat = f64` on 64-bit targets this numeric widening is the identity on the
value. -/
def f64_as_CGFloat (x : F64) : CGFloat := x

/-- An opaque Objective-C object pointer (the crate's `id`, i.e.
`*mut Object`), modelled by its address. -/
abbrev ObjId := Nat

/-- Rust `ShareId<Object>` (from `objc_id`): a shared pointer to a retained
Objective-C object, modelled by the address that `&*contents` dereferences
to. -/
abbrev ShareId := ObjId

/-- Modelled from the spec: a "native runtime fault" — any error, exception or
abnormal signal raised by the platform GUI framework during a foreign call.
This layer neither classifies nor recovers from faults, so a fault is just an
opaque identity. -/
abbrev Fault := Nat

/-- An argument of a typed message send into the native runtime. -/
inductive Arg where
  | cgFloat (x : CGFloat)
  | objPtr (p : ObjId)
deriving DecidableEq, Repr

/-- One typed message send into the native runtime
(`msg_send![receiver, selector: args]`). -/
inductive NativeCall where
  | msgSend (receiver : ObjId) (selector : String) (args : List Arg)
deriving DecidableEq, Repr

/-- Modelled from the spec: `ObjcProperty` (in `crate::utils::properties`, not
part of the provided excerpt) is the Managed Native Handle — it owns exactly
one reference to an externally reference-counted native object and is
represented here by the raw handle it owns. -/
structure ObjcProperty where
  handle : ObjId
deriving DecidableEq, Repr

/-- Modelled from the spec: `ObjcProperty::retain`, the acquisition used by
`create_new()` (`Layer::new`).  Per the spec it "takes ownership of the
returned reference (assumed already at refcount 1 per platform convention)":
ownership transfer, no reference-count traffic of its own. -/
def ObjcProperty.retain (obj : ObjId) : ObjcProperty := ⟨obj⟩

/-- Modelled from the spec: `ObjcProperty::from_retained`, the acquisition used
by `adopt(existing)` (`Layer::wrap`): "wraps an already-retained external
handle without incrementing its reference count". -/
def ObjcProperty.from_retained (obj : ObjId) : ObjcProperty := ⟨obj⟩

/-- Record of one `with_mut` invocation: the raw handle that was passed to the
supplied operation, and the message sends the operation performed on it. -/
structure WithMutCall where
  handle : ObjId
  sends : List NativeCall
deriving DecidableEq, Repr

/-- Modelled from the spec: `ObjcProperty::with_mut(closure)` "acquires
exclusive access to the underlying raw handle, passes it to the supplied
operation, and returns the operation's result".  The property itself — the
pointer it owns — is unchanged by the call, so it is returned alongside the
invocation record for the caller's subsequent use. -/
def ObjcProperty.with_mut (p : ObjcProperty) (f : ObjId → List NativeCall) :
    WithMutCall × ObjcProperty :=
  (⟨p.handle, f p.handle⟩, p)

/-- Modelled from the spec: `with_mut` when the supplied operation crosses into
the native runtime and may raise a native runtime fault.  "Any fault raised by
the native runtime during a `with_mut` call propagates to the caller as-is";
the property is unchanged, so the handle remains valid afterwards. -/
def ObjcProperty.with_mut_faulting (p : ObjcProperty)
    (f : ObjId → Except Fault (List NativeCall)) :
    Except Fault (List NativeCall) × ObjcProperty :=
  (f p.handle, p)

/-- Rust `Layer` (src/layer/mod.rs): a thin facade over the managed handle.
Field `objc` is "The underlying layer pointer." -/
structure Layer where
  objc : ObjcProperty
deriving DecidableEq, Repr

/-- Rust `Layer::new`:
`ObjcProperty::retain(unsafe { msg_send![class!(CALayer), new] })`.
The pointer returned by the native allocation entry point `[CALayer new]` is
the parameter `allocated`. -/
def Layer.new (allocated : ObjId) : Layer :=
  { objc := ObjcProperty.retain allocated }

/-- Rust `Layer::wrap`: wraps an existing (already retained) `CALayer` via
`ObjcProperty::from_retained`. -/
def Layer.wrap (layer : ObjId) : Layer :=
  { objc := ObjcProperty.from_retained layer }

/-- Rust `Layer::set_corner_radius`: a single `with_mut` call whose body is the
single send `msg_send![obj, setCornerRadius: radius as CGFloat]`.  The result
pairs the list of `with_mut` invocations the method performed with the wrapper
after the call. -/
def Layer.set_corner_radius (l : Layer) (radius : F64) :
    List WithMutCall × Layer :=
  let r := l.objc.with_mut fun obj =>
    [NativeCall.msgSend obj "setCornerRadius:" [Arg.cgFloat (f64_as_CGFloat radius)]]
  ([r.1], { objc := r.2 })

/-- Rust `Layer::set_contents<T>`: a single `with_mut` call whose body is the
single send `msg_send![obj, setContents: &*contents]`.  The type parameter `T`
does not occur in the body, exactly as in the source. -/
def Layer.set_contents (T : Type) (l : Layer) (contents : ShareId) :
    List WithMutCall × Layer :=
  let r := l.objc.with_mut fun obj =>
    [NativeCall.msgSend obj "setContents:" [Arg.objPtr contents]]
  ([r.1], { objc := r.2 })

/-- Rust `Image` (in `crate::image`, not part of the provided excerpt):
`Layer::set_image_contents` only uses its tuple field `image.0`, a
`ShareId<Object>` to the retained native image, so the type is modelled by
that handle. -/
structure Image where
  raw : ShareId
deriving DecidableEq, Repr

/-- Rust `Layer::set_image_contents`: a single `with_mut` call whose body is
the single send `msg_send![obj, setContents: &*image.0]`. -/
def Layer.set_image_contents (l : Layer) (image : Image) :
    List WithMutCall × Layer :=
  let r := l.objc.with_mut fun obj =>
    [NativeCall.msgSend obj "setContents:" [Arg.objPtr image.raw]]
  ([r.1], { objc := r.2 })

/-! ## Lifetime event traces (modelled from the spec) -/

/-- An event crossing the foreign interface during a handle's lifetime, as
seen by the external reference-counting runtime. -/
inductive Event where
  | alloc (h : ObjId)
  | retain (h : ObjId)
  | release (h : ObjId)
  | call (c : NativeCall)
  | fault (e : Fault)
deriving DecidableEq, Repr

/-- Effect of one event on the external reference count of handle `h`:
allocation and retain increment it, release decrements it, message sends and
faults leave it unchanged. -/
def refDelta (h : ObjId) : Event → Int
  | .alloc h' => if h' = h then 1 else 0
  | .retain h' => if h' = h then 1 else 0
  | .release h' => if h' = h then -1 else 0
  | .call _ => 0
  | .fault _ => 0

/-- Net reference-count effect of a trace of events on handle `h`. -/
def netRef (h : ObjId) (tr : List Event) : Int :=
  (tr.map (refDelta h)).sum

/-- Events of one `with_mut` call: the message sends the operation performed on
success, or the fault the native runtime raised. -/
def withMutEvents (r : Except Fault (List NativeCall)) : List Event :=
  match r with
  | .ok cs => cs.map Event.call
  | .error e => [Event.fault e]

/-- Modelled from the spec: events of the active part of a handle's lifetime —
each `with_mut` operation runs in turn on the raw handle; a fault propagates to
the direct caller and does not end the lifetime or invalidate the handle. -/
def lifeEvents (h : ObjId) (ops : List (ObjId → Except Fault (List NativeCall))) :
    List Event :=
  ops.flatMap fun op => withMutEvents (op h)

/-- Modelled from the spec: the whole-lifetime event trace of a handle acquired
via `create_new()` (`Layer::new`): the native allocation entry point returns a
reference at refcount 1, ownership of which the handle takes; then the
`with_mut` operations run; destruction releases the one owned reference
exactly once. -/
def createNewLifecycle (h : ObjId)
    (ops : List (ObjId → Except Fault (List NativeCall))) : List Event :=
  Event.alloc h :: (lifeEvents h ops ++ [Event.release h])

/-- Modelled from the spec: the whole-lifetime event trace of a handle acquired
via `adopt(existing)` (`Layer::wrap`): the already-retained handle is wrapped
without incrementing its reference count; then the `with_mut` operations run;
destruction releases the one owned reference exactly once. -/
def adoptLifecycle (h : ObjId)
    (ops : List (ObjId → Except Fault (List NativeCall))) : List Event :=
  lifeEvents h ops ++ [Event.release h]

theorem withMutEvents_no_release (h : ObjId) (r : Except Fault (List NativeCall)) :
    Event.release h ∉ withMutEvents r := by
  cases r with
  | ok cs => simp [withMutEvents]
  | error e => simp [withMutEvents]

theorem withMutEvents_no_retain (h : ObjId) (r : Except Fault (List NativeCall)) :
    Event.retain h ∉ withMutEvents r := by
  cases r with
  | ok cs => simp [withMutEvents]
  | error e => simp [withMutEvents]

theorem lifeEvents_no_release (h h' : ObjId)
    (ops : List (ObjId → Except Fault (List NativeCall))) :
    Event.release h ∉ lifeEvents h' ops := by
  intro hmem
  rw [lifeEvents, List.mem_flatMap] at hmem
  obtain ⟨op, _, hx⟩ := hmem
  exact withMutEvents_no_release h _ hx

theorem lifeEvents_no_retain (h h' : ObjId)
    (ops : List (ObjId → Except Fault (List NativeCall))) :
    Event.retain h ∉ lifeEvents h' ops := by
  intro hmem
  rw [lifeEvents, List.mem_flatMap] at hmem
  obtain ⟨op, _, hx⟩ := hmem
  exact withMutEvents_no_retain h _ hx

theorem refDelta_of_mem_lifeEvents (h h' : ObjId)
    (ops : List (ObjId → Except Fault (List NativeCall)))
    (e : Event) (he : e ∈ lifeEvents h' ops) : refDelta h e = 0 := by
  rw [lifeEvents, List.mem_flatMap] at he
  obtain ⟨op, _, hx⟩ := he
  revert hx
  cases hr : op h' with
  | ok cs =>
    intro hx
    rw [withMutEvents, List.mem_map] at hx
    obtain ⟨c, _, rfl⟩ := hx
    rfl
  | error f =>
    intro hx
    simp [withMutEvents] at hx
    subst hx
    rfl

theorem netRef_lifeEvents (h h' : ObjId)
    (ops : List (ObjId → Except Fault (List NativeCall))) :
    netRef h (lifeEvents h' ops) = 0 := by
  apply List.sum_eq_zero
  intro x hx
  rw [List.mem_map] at hx
  obtain ⟨e, he, rfl⟩ := hx
  exact refDelta_of_mem_lifeEvents h h' ops e he

/-! ## Lock model for with_mut mutual exclusion (modelled from the spec) -/

/-- Modelled from the spec: the lock state guarding one handle's mutable
surface.  `owner` is the thread currently holding exclusive access (if any);
`inCrit` records, per thread, whether that thread is currently inside the
critical section of a `with_mut` call on this handle. -/
structure LockSt where
  owner : Option Nat
  inCrit : Nat → Bool

/-- Modelled from the spec: the state before any `with_mut` call — the lock is
free and no thread is inside a critical section. -/
def LockSt.start : LockSt := ⟨none, fun _ => false⟩

/-- Modelled from the spec: the two transitions of a `with_mut` call on one
handle.  A thread enters its critical section only by acquiring the free lock,
and leaving releases the lock it holds. -/
inductive LockStep : LockSt → LockSt → Prop where
  | enter (t : Nat) (s : LockSt) (hfree : s.owner = none) :
      LockStep s ⟨some t, Function.update s.inCrit t true⟩
  | leave (t : Nat) (s : LockSt) (hown : s.owner = some t) :
      LockStep s ⟨none, Function.update s.inCrit t false⟩

/-- States reachable from the start state by `with_mut` enter/leave steps. -/
inductive LockReach : LockSt → Prop where
  | start : LockReach LockSt.start
  | step {s s' : LockSt} : LockReach s → LockStep s s' → LockReach s'

theorem lock_invariant {s : LockSt} (hr : LockReach s) :
    ∀ t, s.inCrit t = true → s.owner = some t := by
  induction hr with
  | start => intro t ht; simp [LockSt.start] at ht
  | step hr hstep ih =>
    cases hstep with
    | enter t0 s0 hfree =>
      intro t ht
      dsimp only at ht ⊢
      by_cases hts : t = t0
      · subst hts; rfl
      · rw [Function.update_noteq hts] at ht
        have h1 := ih t ht
        rw [hfree] at h1
        exact absurd h1 (by simp)
    | leave t0 s0 hown =>
      intro t ht
      dsimp only at ht ⊢
      by_cases hts : t = t0
      · subst hts
        rw [Function.update_same] at ht
        exact absurd ht (by simp)
      · rw [Function.update_noteq hts] at ht
        have h1 := ih t ht
        rw [hown] at h1
        exact absurd (Option.some.inj h1).symm hts

/-- Concrete reachable state for the mutual-exclusion witness: thread 0 has
entered its critical section. -/
def lockStA : LockSt := ⟨some 0, Function.update (fun _ => false) 0 true⟩

/-! ## Claim theorems -/

/-- C1: for every handle created via `create_new()` (`Layer::new`), the
creation takes ownership of the +1 reference returned by the native allocation
entry point, exactly one release occurs at the end of the handle's lifetime,
and the net reference-count effect over the whole lifetime — for any sequence
of `with_mut` operations, faulting or not — is zero. -/
theorem create_new_refcount_neutral (h : ObjId)
    (ops : List (ObjId → Except Fault (List NativeCall))) :
    (createNewLifecycle h ops).count (Event.release h) = 1 ∧
    netRef h (createNewLifecycle h ops) = 0 := by
  constructor
  · rw [createNewLifecycle, List.count_cons, List.count_append,
      List.count_eq_zero.mpr (lifeEvents_no_release h h ops)]
    simp
  · have hz := netRef_lifeEvents h h ops
    rw [netRef] at hz ⊢
    simp only [createNewLifecycle, List.map_cons, List.map_append,
      List.sum_cons, List.sum_append, hz, List.map_cons, List.map_nil,
      List.sum_cons, List.sum_nil, refDelta]
    simp

/-- C2: for every handle created via `adopt(h)` (`Layer::wrap`) from an
already-retained handle, no retain event occurs anywhere in the lifetime (in
particular the external count is unchanged at the moment of adoption), exactly
one release occurs at destruction, and the net effect over the lifetime is a
single decrement. -/
theorem adopt_no_retain_one_release (h : ObjId)
    (ops : List (ObjId → Except Fault (List NativeCall))) :
    (∀ h', Event.retain h' ∉ adoptLifecycle h ops) ∧
    (adoptLifecycle h ops).count (Event.release h) = 1 ∧
    netRef h (adoptLifecycle h ops) = -1 := by
  refine ⟨?_, ?_, ?_⟩
  · intro h' hmem
    rw [adoptLifecycle, List.mem_append] at hmem
    rcases hmem with hmem | hmem
    · exact lifeEvents_no_retain h' h ops hmem
    · simp at hmem
  · rw [adoptLifecycle, List.count_append,
      List.count_eq_zero.mpr (lifeEvents_no_release h h ops)]
    simp
  · have hz := netRef_lifeEvents h h ops
    rw [netRef] at hz ⊢
    simp only [adoptLifecycle, List.map_append, List.sum_append, hz,
      List.map_cons, List.map_nil, List.sum_cons, List.sum_nil, refDelta]
    simp

/-- C3: for every Managed Native Handle — acquired via `create_new()` or via
`adopt` — destruction releases the owned reference exactly once, whatever the
number of `with_mut` operations during the lifetime and whether or not any of
them raised an external fault. -/
theorem destruction_releases_exactly_once (h : ObjId)
    (ops : List (ObjId → Except Fault (List NativeCall))) :
    (createNewLifecycle h ops).count (Event.release h) = 1 ∧
    (adoptLifecycle h ops).count (Event.release h) = 1 := by
  constructor
  · rw [createNewLifecycle, List.count_cons, List.count_append,
      List.count_eq_zero.mpr (lifeEvents_no_release h h ops)]
    simp
  · rw [adoptLifecycle, List.count_append,
      List.count_eq_zero.mpr (lifeEvents_no_release h h ops)]
    simp

/-- C4: for every `f64` value `r`, `Layer::set_corner_radius` performs exactly
one `with_mut` call, and that call sends exactly one message — the native
corner-radius property setter — carrying `r` widened to `CGFloat`, on the
wrapped handle: no validation, no defaulting, no other native calls. -/
theorem set_corner_radius_forwards (l : Layer) (radius : F64) :
    (l.set_corner_radius radius).1 =
      [⟨l.objc.handle,
        [NativeCall.msgSend l.objc.handle "setCornerRadius:"
          [Arg.cgFloat (f64_as_CGFloat radius)]]⟩] := by
  rfl

/-- C5: a fault raised by the native runtime inside the operation supplied to
`with_mut` propagates to the direct caller unchanged (same fault identity, not
caught, translated or suppressed), and afterwards the property is uncorrupted:
the same handle is passed to every subsequent `with_mut` operation. -/
theorem with_mut_fault_propagation (p : ObjcProperty)
    (f : ObjId → Except Fault (List NativeCall)) (e : Fault)
    (hf : f p.handle = Except.error e) :
    (p.with_mut_faulting f).1 = Except.error e ∧
    (p.with_mut_faulting f).2 = p ∧
    ∀ g, ((p.with_mut_faulting f).2.with_mut_faulting g).1 = g p.handle := by
  refine ⟨?_, rfl, fun g => rfl⟩
  rw [ObjcProperty.with_mut_faulting]
  exact hf

/-- Witness for C5 at the concrete property with handle 3 and an operation
that faults with fault identity 7. -/
theorem with_mut_fault_propagation_witness :
    ((ObjcProperty.mk 3).with_mut_faulting fun _ => Except.error 7).1 =
      Except.error 7 :=
  (with_mut_fault_propagation (ObjcProperty.mk 3)
    (fun _ => Except.error 7) 7 rfl).1

/-- C6: in every reachable state of the lock guarding one handle's `with_mut`
surface, no two threads are inside their critical sections at once: any two
threads found in the critical section are the same thread, so `with_mut`
calls on the same handle never interleave. -/
theorem with_mut_mutual_exclusion (s : LockSt) (t1 t2 : Nat)
    (hr : LockReach s) (h1 : s.inCrit t1 = true) (h2 : s.inCrit t2 = true) :
    t1 = t2 := by
  have e1 := lock_invariant hr t1 h1
  have e2 := lock_invariant hr t2 h2
  rw [e1] at e2
  exact Option.some.inj e2

/-- Witness for C6 at the concrete reachable state in which thread 0 holds
the lock and is inside its critical section. -/
theorem with_mut_mutual_exclusion_witness : (0 : Nat) = 0 :=
  with_mut_mutual_exclusion lockStA 0 0
    (LockReach.step LockReach.start (LockStep.enter 0 LockSt.start rfl))
    (by simp [lockStA]) (by simp [lockStA])

/-- C7: for every contents handle, `Layer::set_contents` (and likewise
`Layer::set_image_contents` for an image) performs exactly one `with_mut`
call sending exactly one message — the native contents property setter —
carrying the contents handle, with no validation, defaulting or derived
state. -/
theorem set_contents_forwards (T : Type) (l : Layer) (contents : ShareId)
    (image : Image) :
    (Layer.set_contents T l contents).1 =
      [⟨l.objc.handle,
        [NativeCall.msgSend l.objc.handle "setContents:"
          [Arg.objPtr contents]]⟩] ∧
    (l.set_image_contents image).1 =
      [⟨l.objc.handle,
        [NativeCall.msgSend l.objc.handle "setContents:"
          [Arg.objPtr image.raw]]⟩] := by
  exact ⟨rfl, rfl⟩

/-- C8: for every Managed Native Handle — from either acquisition path — the
lifetime trace ends with its single release: the release occurs exactly once
per acquisition and nothing (in particular no `with_mut` entry, message send
or any other event) follows it, so a use-after-release state is
unreachable. -/
theorem no_use_after_release (h : ObjId)
    (ops : List (ObjId → Except Fault (List NativeCall))) :
    (∃ pre, createNewLifecycle h ops = pre ++ [Event.release h] ∧
      Event.release h ∉ pre) ∧
    (∃ pre, adoptLifecycle h ops = pre ++ [Event.release h] ∧
      Event.release h ∉ pre) := by
  constructor
  · refine ⟨Event.alloc h :: lifeEvents h ops, by rw [createNewLifecycle, List.cons_append], ?_⟩
    intro hmem
    rcases List.mem_cons.mp hmem with hmem | hmem
    · exact absurd hmem (by simp)
    · exact lifeEvents_no_release h h ops hmem
  · refine ⟨lifeEvents h ops, by rw [adoptLifecycle], ?_⟩
    exact lifeEvents_no_release h h ops

/-- C9: every public `Layer` operation takes the wrapper by shared reference
and leaves the wrapper's own state unchanged: for every input, the wrapper
after the call equals the wrapper before it, so the `objc` field refers to
the same underlying handle. -/
theorem layer_ops_preserve_wrapper (T : Type) (l : Layer) (radius : F64)
    (contents : ShareId) (image : Image) :
    (l.set_corner_radius radius).2 = l ∧
    (Layer.set_contents T l contents).2 = l ∧
    (l.set_image_contents image).2 = l := by
  exact ⟨rfl, rfl, rfl⟩

/-- C10: the type parameter `T` of `Layer::set_contents<T>` has no effect on
behaviour: any two instantiations perform the identical `with_mut` call with
the identical native message and leave the wrapper identical. -/
theorem set_contents_type_param_irrelevant (T1 T2 : Type) (l : Layer)
    (contents : ShareId) :
    Layer.set_contents T1 l contents = Layer.set_contents T2 l contents := by
  rfl

end Cacao
